import Mathlib

/-!
Verification of the orchestration-and-synthesis core of the IntelliDrug
repository (the active `MasterAgent` class of `src/master_agent.py`, the
`ConflictDetector` of `src/conflict_detector.py`, and the async wrapper of
`src/agents/base_agent.py`) against its natural-language specification.

Python dict values relevant to the core are modelled shallowly:
numbers as rationals, a dict carrying only the keys the core reads as a
structure of `Option` fields (`none` = key absent), and any non-dict value
collapsed to `ResultValue.nondict` (the code only ever checks
`isinstance(result, dict)` before reading fields).
-/

namespace IntelliDrug

/-- Progress lifecycle stages, the string statuses written into
`self.progress` by `MasterAgent`. -/
inductive Status
  | Pending
  | Running
  | Complete
  | Failed
  deriving DecidableEq

/-- Recommendation bands returned by `synthesize_results`. -/
inductive Recommendation
  | PROCEED
  | CAUTION
  | REJECT
  deriving DecidableEq

/-- One entry of `patent_data["source_data"]` as read by
`ConflictDetector.detect_conflicts`: the keys `source`, `expiry_date` and
`confidence` (each possibly absent). -/
structure SourceEntry where
  source : Option String
  expiry_date : Option String
  confidence : Option ℚ
  deriving DecidableEq

/-- A provider result dict, restricted to the keys the core reads:
`confidence` and `error` (reserved), `fto_status` (risk extraction in
`synthesize_results`), and `expiry_date` / `source_data` (conflict
detection).  The remaining capability-specific keys are opaque to the core
and only flow into the human-readable `key_factors` strings, which are not
modelled. -/
structure AnalysisResult where
  confidence : Option ℚ
  error : Option String
  fto_status : Option String
  expiry_date : Option String
  source_data : Option (List SourceEntry)
  deriving DecidableEq

/-- A value of the results mapping: either a dict (modelled by
`AnalysisResult`) or any non-dict Python value, which the code skips after
its `isinstance(result, dict)` check. -/
inductive ResultValue
  | dict (r : AnalysisResult)
  | nondict
  deriving DecidableEq

/-- The empty dict `\x7b\x7d`, the default of `all_agent_results.get(agent, \x7b\x7d)`. -/
def emptyResult : AnalysisResult := ⟨none, none, none, none, none⟩

/-- The degraded placeholder `\x7b"error": msg, "confidence": 0.0\x7d` built by
`_run_agent_async` on timeout or exception. -/
def degraded (msg : String) : AnalysisResult := ⟨some 0, some msg, none, none, none⟩

/-- The fixed weight table of `MasterAgent.synthesize_results`
(src/master_agent.py lines 461-468). -/
def weights : List (String × ℚ) :=
  [("patent_analysis", 25/100),
   ("clinical_analysis", 20/100),
   ("market_analysis", 20/100),
   ("web_analysis", 15/100),
   ("exim_analysis", 10/100),
   ("internal_analysis", 10/100)]

/-- One iteration of the confidence-accumulation loop of
`synthesize_results` (lines 470-475): `result = all_agent_results.get(agent, \x7b\x7d)`
(a missing key yields the empty dict, whose `confidence` defaults to `0.0`),
the `isinstance(result, dict)` guard skips non-dict values, and otherwise
`overall_confidence += float(result.get("confidence", 0.0)) * weight`. -/
def synthStep (results : String → Option ResultValue) (acc : ℚ) (p : String × ℚ) : ℚ :=
  match results p.1 with
  | some (ResultValue.dict r) => acc + r.confidence.getD 0 * p.2
  | some ResultValue.nondict => acc
  | none => acc + 0 * p.2

/-- The weighted confidence sum computed by the loop of
`synthesize_results` (lines 470-475). -/
def overall_confidence (results : String → Option ResultValue) : ℚ :=
  weights.foldl (synthStep results) 0

/-- The confidence a results entry contributes: the dict's `confidence`
key when present, otherwise `0`. -/
def confidenceOf : Option ResultValue → ℚ
  | some (ResultValue.dict r) => r.confidence.getD 0
  | some ResultValue.nondict => 0
  | none => 0

/-- Modelled from the spec: `overallConfidence = Σ weight(name) *
confidence(results[name])` over every name in the weight table, an absent
name contributing confidence 0 with its weight still counted (no
renormalization).  Stated for refinement comparison against the
code-derived `overall_confidence`. -/
def specOverallConfidence (results : String → Option ResultValue) : ℚ :=
  (weights.map (fun p => p.2 * confidenceOf (results p.1))).sum

/-- The recommendation branch of `synthesize_results` (lines 477-483):
`>= 0.75` PROCEED, `elif >= 0.5` CAUTION, else REJECT. -/
def recommendationOf (oc : ℚ) : Recommendation :=
  if oc ≥ 75/100 then Recommendation.PROCEED
  else if oc ≥ 50/100 then Recommendation.CAUTION
  else Recommendation.REJECT

/-- Round-half-to-even on a rational, the rounding rule of Python `round`
applied to the ideal decimal value. -/
def roundHalfToEven (x : ℚ) : ℤ :=
  let f := ⌊x⌋
  if x - f < 1/2 then f
  else if x - f > 1/2 then f + 1
  else if f % 2 = 0 then f else f + 1

/-- Python `round(x, 2)`: round to 2 decimal places, ties to even. -/
def round2 (x : ℚ) : ℚ := (roundHalfToEven (100 * x) : ℚ) / 100

/-- The dict returned by `synthesize_results`, restricted to the fields
the specification claims concern (`key_factors`, built by f-string
formatting of opaque provider fields, is not modelled). -/
structure SynthesisReport where
  overall_confidence : ℚ
  recommendation : Recommendation
  risks : List String
  next_steps : String
  deriving DecidableEq

/-- The risk extraction of `synthesize_results` (lines 489-493): a risk is
appended iff the `patent_analysis` entry is a dict whose `fto_status` is
`"Risk"`. -/
def risksOf (results : String → Option ResultValue) : List String :=
  match results "patent_analysis" with
  | some (ResultValue.dict r) =>
      if r.fto_status = some "Risk" then ["Patent infringement risk detected"] else []
  | some ResultValue.nondict => []
  | none => []

/-- `MasterAgent.synthesize_results` (src/master_agent.py lines 456-511):
the weighted sum, the recommendation bands evaluated on the unrounded sum,
the risk list with its placeholder default, the two-valued `next_steps`
policy, and the reported `overall_confidence` rounded to 2 decimals. -/
def synthesize_results (results : String → Option ResultValue) : SynthesisReport :=
  let oc := overall_confidence results
  let recomm := recommendationOf oc
  let risks := risksOf results
  ⟨round2 oc,
   recomm,
   if risks = [] then ["No major risks identified"] else risks,
   if recomm = Recommendation.PROCEED then "Proceed to feasibility study"
   else "Further analysis required"⟩

/-- A results mapping in which every name carries a dict with confidence
`c` and no other keys; used as concrete test input. -/
def constResults (c : ℚ) : String → Option ResultValue :=
  fun _ => some (ResultValue.dict ⟨some c, none, none, none, none⟩)

lemma synthStep_eq (results : String → Option ResultValue) (acc : ℚ) (p : String × ℚ) :
    synthStep results acc p = acc + p.2 * confidenceOf (results p.1) := by
  rcases h : results p.1 with _ | rv
  · simp [synthStep, confidenceOf, h]
  · cases rv
    · simp [synthStep, confidenceOf, h]; ring
    · simp [synthStep, confidenceOf, h]

lemma foldl_synthStep (results : String → Option ResultValue) :
    ∀ (l : List (String × ℚ)) (acc : ℚ),
      l.foldl (synthStep results) acc
        = acc + (l.map (fun p => p.2 * confidenceOf (results p.1))).sum := by
  intro l
  induction l with
  | nil => intro acc; simp
  | cons p t ih =>
      intro acc
      simp only [List.foldl_cons, List.map_cons, List.sum_cons, synthStep_eq, ih]
      ring

/-- The code's loop equals the spec formula on every input. -/
lemma overall_confidence_eq_spec (results : String → Option ResultValue) :
    overall_confidence results = specOverallConfidence results := by
  simp [overall_confidence, specOverallConfidence, foldl_synthStep]

/-- Claim C1: for every results mapping, `synthesize_results` computes the
overall confidence as the sum over every capability name in the fixed
weight table of `weight(name) * confidence(results[name])`; a name absent
from the results (or carrying no confidence) contributes confidence 0
while its weight still counts, with no renormalization over present-only
entries. -/
theorem claim_C1_weighted_sum (results : String → Option ResultValue) :
    overall_confidence results = specOverallConfidence results :=
  overall_confidence_eq_spec results

/-- Claim C1 witness: the refinement theorem instantiated at a concrete
results mapping. -/
theorem claim_C1_weighted_sum_witness :
    overall_confidence (constResults 1) = specOverallConfidence (constResults 1) :=
  claim_C1_weighted_sum (constResults 1)

/-- Claim C2: the recommendation returned by `synthesize_results` is
PROCEED when the weighted sum is at least 0.75, CAUTION when it lies in
[0.50, 0.75), and REJECT below 0.50; both band lower bounds are
inclusive. -/
theorem claim_C2_recommendation_bands (results : String → Option ResultValue) :
    (75/100 ≤ overall_confidence results →
      (synthesize_results results).recommendation = Recommendation.PROCEED) ∧
    (50/100 ≤ overall_confidence results ∧ overall_confidence results < 75/100 →
      (synthesize_results results).recommendation = Recommendation.CAUTION) ∧
    (overall_confidence results < 50/100 →
      (synthesize_results results).recommendation = Recommendation.REJECT) ∧
    recommendationOf (75/100) = Recommendation.PROCEED ∧
    recommendationOf (50/100) = Recommendation.CAUTION := by
  refine ⟨?_, ?_, ?_, by norm_num [recommendationOf], by norm_num [recommendationOf]⟩
  · intro h
    simp only [synthesize_results, recommendationOf]
    rw [if_pos h]
  · rintro ⟨h1, h2⟩
    simp only [synthesize_results, recommendationOf]
    rw [if_neg (not_le.mpr h2), if_pos h1]
  · intro h
    simp only [synthesize_results, recommendationOf]
    rw [if_neg (not_le.mpr (h.trans (by norm_num))), if_neg (not_le.mpr h)]

/-- Claim C2 witness: each band hypothesis discharged at a concrete
results mapping. -/
theorem claim_C2_recommendation_bands_witness :
    (synthesize_results (constResults 1)).recommendation = Recommendation.PROCEED ∧
    (synthesize_results (constResults (6/10))).recommendation = Recommendation.CAUTION ∧
    (synthesize_results (constResults 0)).recommendation = Recommendation.REJECT := by
  refine ⟨(claim_C2_recommendation_bands (constResults 1)).1 ?_,
          (claim_C2_recommendation_bands (constResults (6/10))).2.1 ⟨?_, ?_⟩,
          (claim_C2_recommendation_bands (constResults 0)).2.2.1 ?_⟩ <;>
    norm_num [overall_confidence, weights, synthStep, constResults]

/-- Claim C6: the overall confidence is monotonically non-decreasing in
each individual capability's confidence, all other entries held fixed. -/
theorem claim_C6_confidence_monotone (r r' : String → Option ResultValue) (name : String)
    (hframe : ∀ m, m ≠ name → r m = r' m)
    (hmono : confidenceOf (r name) ≤ confidenceOf (r' name)) :
    overall_confidence r ≤ overall_confidence r' := by
  rw [overall_confidence_eq_spec, overall_confidence_eq_spec]
  unfold specOverallConfidence
  apply List.sum_le_sum
  intro p hp
  by_cases hpn : p.1 = name
  · have hw : (0:ℚ) ≤ p.2 := by fin_cases hp <;> norm_num
    rw [hpn]
    exact mul_le_mul_of_nonneg_left hmono hw
  · rw [hframe p.1 hpn]

/-- A results mapping with every capability absent, for the monotonicity
witness. -/
def allAbsent : String → Option ResultValue := fun _ => none

/-- A results mapping where only `patent_analysis` reports, with full
confidence. -/
def patentOnly : String → Option ResultValue :=
  fun n => if n = "patent_analysis"
    then some (ResultValue.dict ⟨some 1, none, none, none, none⟩) else none

/-- Claim C6 witness: monotonicity applied to raising the
`patent_analysis` confidence from absent (0) to 1. -/
theorem claim_C6_confidence_monotone_witness :
    overall_confidence allAbsent ≤ overall_confidence patentOnly :=
  claim_C6_confidence_monotone allAbsent patentOnly "patent_analysis"
    (fun m hm => by simp [allAbsent, patentOnly, hm])
    (by norm_num [allAbsent, patentOnly, confidenceOf])

/-- Claim C10: the reported `overall_confidence` is the weighted sum
rounded to 2 decimal places while the recommendation is evaluated on the
unrounded sum; at the concrete input where every capability reports
confidence 0.748 the unrounded sum is 0.748, the reported value rounds to
0.75 — which lies in the PROCEED band — yet the recommendation returned
alongside it is CAUTION. -/
theorem claim_C10_rounded_report_unrounded_band :
    (∀ results : String → Option ResultValue,
      (synthesize_results results).overall_confidence
          = round2 (overall_confidence results) ∧
      (synthesize_results results).recommendation
          = recommendationOf (overall_confidence results)) ∧
    (synthesize_results (constResults (748/1000))).overall_confidence = 75/100 ∧
    (synthesize_results (constResults (748/1000))).recommendation = Recommendation.CAUTION ∧
    recommendationOf (75/100) = Recommendation.PROCEED := by
  refine ⟨fun results => ⟨rfl, rfl⟩, ?_, ?_, by norm_num [recommendationOf]⟩
  · norm_num [synthesize_results, overall_confidence, weights, synthStep, constResults,
      round2, roundHalfToEven]
  · norm_num [synthesize_results, overall_confidence, weights, synthStep, constResults,
      recommendationOf]

/-- The capability names, the keys of `self.agents` in `MasterAgent.__init__`
(src/master_agent.py lines 366-374), in dict insertion order. -/
def agentNames : List String :=
  ["patent_analysis", "clinical_analysis", "market_analysis",
   "web_analysis", "exim_analysis", "internal_analysis"]

/-- How one awaited `agent.analyze_async(...)` call can settle inside
`_run_agent_async`, mirroring its three handler paths: the return path,
the `except asyncio.TimeoutError` branch (src/master_agent.py lines
390-393), and the blanket `except Exception` branch carrying the
description string.  Note that every registered agent overrides
`analyze_async` with a bare `run_in_executor` call containing no
`asyncio.wait_for`, so the `timeout` case — though present as a handler in
the source — is unreachable from any dispatched call; it is kept so the
model covers exactly the branches the dispatcher's code has. -/
inductive Outcome
  | ok (v : ResultValue)
  | timeout
  | exc (msg : String)
  deriving DecidableEq

/-- The timeout, in seconds, of the `asyncio.wait_for` wrapper in
`BaseAgent.analyze_async` (src/agents/base_agent.py line 20), as an
optional bound.  This wrapper is dead code on every dispatched path: all
six registered agents override `analyze_async`, so no task the dispatcher
launches is bounded by this constant. -/
def baseAnalyzeAsyncTimeoutSeconds : Option ℕ := some 30

/-- The per-task timeout bound each registered agent's own
`analyze_async` override actually imposes on the dispatched call: every
override is a bare `await loop.run_in_executor(None, self.analyze, ...)`
with no `asyncio.wait_for` and no `super()` delegation
(src/agents/patent_agent.py line 81, clinical_trials_agent.py line 69,
market_agent.py line 68, web_intelligence_agent.py line 83,
exim_agent.py line 75, internal_knowledge_agent.py line 42), hence no
bound at all. -/
def analyzeAsyncOverrideTimeout : List (String × Option ℕ) :=
  [("patent_analysis", none),
   ("clinical_analysis", none),
   ("market_analysis", none),
   ("web_analysis", none),
   ("exim_analysis", none),
   ("internal_analysis", none)]

/-- The value `_run_agent_async` returns for one task
(src/master_agent.py lines 382-397): the agent's own result on success,
and the degraded placeholder dict on timeout or exception. -/
def runAgentResult : Outcome → ResultValue
  | Outcome.ok v => v
  | Outcome.timeout => ResultValue.dict (degraded "Timeout")
  | Outcome.exc m => ResultValue.dict (degraded m)

/-- The terminal progress status `_run_agent_async` writes for one task:
Complete on the return path, Failed in both except branches. -/
def runAgentFinalStatus : Outcome → Status
  | Outcome.ok _ => Status.Complete
  | Outcome.timeout => Status.Failed
  | Outcome.exc _ => Status.Failed

/-- The per-task sequence of progress writes performed by
`_run_agent_async`: `self.progress[name] = "Running"` on entry, then the
terminal status when the awaited call settles. -/
def runAgentStatusWrites (o : Outcome) : List Status :=
  [Status.Running, runAgentFinalStatus o]

/-- The per-name result association built by `analyze_repurposing_async`
(src/master_agent.py lines 421-435): one `_run_agent_async` entry per
registered agent, gathered with `asyncio.gather(..., return_exceptions=True)`
and zipped back against the agent names.  `_run_agent_async` is total
(every branch returns), so the gathered value for each name is exactly
`runAgentResult` of that task's own settling outcome. -/
def gatherResults (outcomes : String → Outcome) : List (String × ResultValue) :=
  agentNames.map (fun n => (n, runAgentResult (outcomes n)))

/-- Dict lookup on an association list of results. -/
def lookupResult (l : List (String × ResultValue)) (n : String) : Option ResultValue :=
  (l.find? (fun p => p.1 == n)).map (fun p => p.2)

lemma lookup_gather (outcomes : String → Outcome) (m : String) (hm : m ∈ agentNames) :
    lookupResult (gatherResults outcomes) m = some (runAgentResult (outcomes m)) := by
  fin_cases hm <;> rfl

/-- Claim C3: a task whose invocation raises is replaced in the gathered
results by the degraded placeholder carrying confidence 0 and the
exception description; no exception escapes (a result exists for every
task), and every sibling task's entry is determined solely by its own
outcome — sibling tasks are not cancelled. -/
theorem claim_C3_exception_isolated (outcomes : String → Outcome) (n msg : String)
    (hn : n ∈ agentNames) (hexc : outcomes n = Outcome.exc msg) :
    lookupResult (gatherResults outcomes) n = some (ResultValue.dict (degraded msg)) ∧
    ∀ m, m ∈ agentNames →
      lookupResult (gatherResults outcomes) m = some (runAgentResult (outcomes m)) := by
  refine ⟨?_, fun m hm => lookup_gather outcomes m hm⟩
  rw [lookup_gather outcomes n hn, hexc]
  rfl

/-- An outcome assignment where only `market_analysis` raises; every other
task succeeds with an empty dict. -/
def oneExcOutcomes : String → Outcome :=
  fun n => if n = "market_analysis" then Outcome.exc "boom"
    else Outcome.ok (ResultValue.dict emptyResult)

/-- Claim C3 witness: the isolation theorem at a run where
`market_analysis` raises. -/
theorem claim_C3_exception_isolated_witness :
    lookupResult (gatherResults oneExcOutcomes) "market_analysis"
        = some (ResultValue.dict (degraded "boom")) ∧
    ∀ m, m ∈ agentNames →
      lookupResult (gatherResults oneExcOutcomes) m
        = some (runAgentResult (oneExcOutcomes m)) :=
  claim_C3_exception_isolated oneExcOutcomes "market_analysis" "boom"
    (by simp [agentNames]) (by simp [oneExcOutcomes])

/-- Claim C4 evaluation at the failing configuration: the 30-second
`wait_for` exists only in the `BaseAgent.analyze_async` wrapper, while the
`analyze_async` override every registered agent actually dispatches
through carries no timeout bound whatsoever — and the override table
covers every registered agent name.  Hence a provider call that blocks
past 30 seconds is awaited indefinitely: no `asyncio.TimeoutError` is ever
raised on a dispatched path, and the claimed degraded
`\x7bconfidence: 0.0, error: "Timeout"\x7d` result is never produced. -/
theorem claim_C4_timeout_bound_dead :
    baseAnalyzeAsyncTimeoutSeconds = some 30 ∧
    analyzeAsyncOverrideTimeout.all (fun p => p.2.isNone) = true ∧
    agentNames.all
      (fun n => (analyzeAsyncOverrideTimeout.map (fun p => p.1)).contains n) = true :=
  ⟨rfl, rfl, rfl⟩

/-- The legal progress transitions: Pending may move to Running, Running
to either terminal state; nothing else. -/
def allowedStep : Status → Status → Bool
  | Status.Pending, Status.Running => true
  | Status.Running, Status.Complete => true
  | Status.Running, Status.Failed => true
  | _, _ => false

/-- Whether a status is terminal. -/
def isTerminal : Status → Bool
  | Status.Complete => true
  | Status.Failed => true
  | _ => false

/-- The initial progress dict built in `MasterAgent.__init__`
(src/master_agent.py line 376): every agent name mapped to Pending. -/
def initProgress : List (String × Status) :=
  agentNames.map (fun n => (n, Status.Pending))

/-- The full status history of one agent's progress entry within a run:
its initial Pending value followed by the writes of `_run_agent_async`. -/
def statusHistory (o : Outcome) : List Status :=
  Status.Pending :: runAgentStatusWrites o

/-- Claim C7: every agent's progress entry starts as Pending at
construction, and its status history within a run follows only the
transitions Pending→Running→(Complete or Failed), ending in a terminal
state that never reverts. -/
theorem claim_C7_status_lifecycle (n : String) (o : Outcome) (hn : n ∈ agentNames) :
    (initProgress.find? (fun p => p.1 == n)).map (fun p => p.2) = some Status.Pending ∧
    List.Chain' (fun a b => allowedStep a b = true) (statusHistory o) ∧
    (statusHistory o).getLast? = some (runAgentFinalStatus o) ∧
    isTerminal (runAgentFinalStatus o) = true := by
  refine ⟨by fin_cases hn <;> rfl, ?_, ?_, ?_⟩ <;>
    cases o <;> simp [statusHistory, runAgentStatusWrites, runAgentFinalStatus, allowedStep,
      isTerminal]

/-- Claim C7 witness: the lifecycle theorem for the `exim_analysis` entry
of a timed-out task. -/
theorem claim_C7_status_lifecycle_witness :
    (initProgress.find? (fun p => p.1 == "exim_analysis")).map (fun p => p.2)
        = some Status.Pending ∧
    List.Chain' (fun a b => allowedStep a b = true) (statusHistory Outcome.timeout) ∧
    (statusHistory Outcome.timeout).getLast? = some (runAgentFinalStatus Outcome.timeout) ∧
    isTerminal (runAgentFinalStatus Outcome.timeout) = true :=
  claim_C7_status_lifecycle "exim_analysis" Outcome.timeout (by simp [agentNames])

/-- One element of the `sources` list of a conflict entry, as assembled by
`detect_conflicts`: `\x7b"source": ..., "value": ..., "confidence": ...\x7d`. -/
structure ExpiryValue where
  source : String
  value : Option String
  confidence : ℚ
  deriving DecidableEq

/-- A conflict entry: `\x7b"field": ..., "sources": ..., "resolution": ...\x7d`. -/
structure ConflictEntry where
  field : String
  sources : List ExpiryValue
  resolution : String
  deriving DecidableEq

/-- The conflict report dict returned by `detect_conflicts`. -/
structure ConflictReport where
  conflict_detected : Bool
  conflicts : List ConflictEntry
  deriving DecidableEq

/-- The `expiry_values` list assembled by `detect_conflicts`
(src/conflict_detector.py lines 31-47): one entry per element of
`source_data` when that key is present (source defaulting to "unknown",
confidence to 0), otherwise the single Generic fallback entry drawn from
the patent dict itself. -/
def collectExpiryValues (r : AnalysisResult) : List ExpiryValue :=
  match r.source_data with
  | some entries =>
      entries.map (fun e => ⟨e.source.getD "unknown", e.expiry_date, e.confidence.getD 0⟩)
  | none => [⟨"Generic", r.expiry_date, r.confidence.getD 0⟩]

/-- The truthy expiry values: Python keeps `v["value"]` only when it is
neither `None` nor the empty string. -/
def presentValues (l : List ExpiryValue) : List String :=
  l.filterMap (fun v =>
    match v.value with
    | some s => if s = "" then none else some s
    | none => none)

/-- `ConflictDetector.detect_conflicts` (src/conflict_detector.py lines
16-58), restricted to its single rule: `patent_data =
results_dict.get("patent_analysis", \x7b\x7d)` (so a missing key falls through
to the empty dict), skip when not a dict, collect the expiry values, and
report a conflict exactly when the set of truthy values has more than one
element, carrying every source's value and confidence and the fixed
advisory resolution string.  The function is total: it never raises for
missing data. -/
def detect_conflicts (results : String → Option ResultValue) : ConflictReport :=
  let patent_data :=
    match results "patent_analysis" with
    | none => ResultValue.dict emptyResult
    | some v => v
  match patent_data with
  | ResultValue.dict pd =>
      let expiry_values := collectExpiryValues pd
      if (presentValues expiry_values).dedup.length > 1 then
        ⟨true, [⟨"patent_expiry", expiry_values,
                 "Use highest confidence source with flag for review"⟩]⟩
      else ⟨false, []⟩
  | ResultValue.nondict => ⟨false, []⟩

/-- The `expiry_values` list `detect_conflicts` observes for a given
results mapping (empty when the `patent_analysis` entry is not a dict). -/
def expiryValuesOf (results : String → Option ResultValue) : List ExpiryValue :=
  match results "patent_analysis" with
  | none => collectExpiryValues emptyResult
  | some (ResultValue.dict pd) => collectExpiryValues pd
  | some ResultValue.nondict => []

/-- The number of distinct present (non-empty) expiry values observed. -/
def distinctExpiryCount (results : String → Option ResultValue) : ℕ :=
  (presentValues (expiryValuesOf results)).dedup.length

/-- Claim C5: for every results mapping, `detect_conflicts` reports a
conflict exactly when more than one distinct present (non-empty) expiry
value is observed — and then the single conflict entry lists every
source's value and confidence together with the fixed advisory resolution
string; with fewer than two distinct present values (including zero or one
reporting source, or missing fields) the report is conflict-free.  The
function is total, so it never raises for missing data. -/
lemma detect_conflicts_eq (results : String → Option ResultValue) :
    detect_conflicts results =
      if distinctExpiryCount results > 1 then
        ⟨true, [⟨"patent_expiry", expiryValuesOf results,
                 "Use highest confidence source with flag for review"⟩]⟩
      else ⟨false, []⟩ := by
  unfold detect_conflicts distinctExpiryCount expiryValuesOf
  cases hres : results "patent_analysis" with
  | none => rfl
  | some v => cases v <;> rfl

theorem claim_C5_conflict_detection (results : String → Option ResultValue) :
    (distinctExpiryCount results > 1 →
      detect_conflicts results =
        ⟨true, [⟨"patent_expiry", expiryValuesOf results,
                 "Use highest confidence source with flag for review"⟩]⟩) ∧
    (distinctExpiryCount results ≤ 1 →
      detect_conflicts results = ⟨false, []⟩) := by
  constructor <;> intro h <;> rw [detect_conflicts_eq]
  · rw [if_pos h]
  · rw [if_neg (by omega)]

/-- Two sources reporting different expiry dates, the conflicting
witness input. -/
def conflictingResults : String → Option ResultValue :=
  fun n =>
    if n = "patent_analysis" then
      some (ResultValue.dict
        ⟨some (9/10), none, none, none,
         some [⟨some "FDA", some "2026-01-01", some (9/10)⟩,
               ⟨some "WIPO", some "2031-05-05", some (7/10)⟩]⟩)
    else none

/-- Claim C5 witness: both directions discharged at concrete inputs — the
two-source disagreement above triggers a conflict listing both sources,
and the all-absent mapping reports none. -/
theorem claim_C5_conflict_detection_witness :
    detect_conflicts conflictingResults =
      ⟨true, [⟨"patent_expiry",
               [⟨"FDA", some "2026-01-01", 9/10⟩, ⟨"WIPO", some "2031-05-05", 7/10⟩],
               "Use highest confidence source with flag for review"⟩]⟩ ∧
    detect_conflicts allAbsent = ⟨false, []⟩ := by
  constructor
  · have h := (claim_C5_conflict_detection conflictingResults).1 (by decide)
    rw [h]
    rfl
  · exact (claim_C5_conflict_detection allAbsent).2 (by decide)

/-- Python object state of a `MasterAgent` for the progress-snapshot
question: a heap of dict objects addressed by reference, and
`self.progress` holding a reference into it.  Mutating a dict in place is
modelled as updating the heap cell; returning `self.progress` returns the
reference, so aliasing is observable. -/
structure MasterState where
  heap : List (String → Status)
  progressRef : ℕ

/-- The state after `MasterAgent.__init__` (src/master_agent.py line 376):
a single progress dict object with every agent name Pending. -/
def initState : MasterState := ⟨[fun _ => Status.Pending], 0⟩

/-- `MasterAgent.get_analysis_progress` (lines 378-380): `return
self.progress` — the reference to the live dict object itself, with no
copy taken. -/
def get_analysis_progress (s : MasterState) : ℕ := s.progressRef

/-- An in-place write `self.progress[name] = status` as performed by
`_run_agent_async`: the dict object that `self.progress` points to is
mutated on the heap. -/
def set_status (s : MasterState) (n : String) (st : Status) : MasterState :=
  let old := s.heap.getD s.progressRef (fun _ => Status.Pending)
  ⟨s.heap.set s.progressRef (fun m => if m = n then st else old m), s.progressRef⟩

/-- Reading key `n` of the dict object behind reference `r` in state `s`. -/
def readRef (s : MasterState) (r : ℕ) (n : String) : Option Status :=
  (s.heap.get? r).map (fun d => d n)

/-- Claim C8 counterexample: the mapping returned by
`get_analysis_progress` IS altered by a subsequent status write.  From the
initial state the returned reference shows Pending for `patent_analysis`;
after the dispatcher writes Running through `self.progress`, reading the
very reference returned earlier shows Running — the claim that the
returned mapping is a point-in-time copy unaffected by later writes is
false. -/
theorem claim_C8_snapshot_copy_counterexample :
    readRef initState (get_analysis_progress initState) "patent_analysis"
        = some Status.Pending ∧
    readRef (set_status initState "patent_analysis" Status.Running)
        (get_analysis_progress initState) "patent_analysis"
        = some Status.Running := by
  constructor <;> rfl

/-- Claim C8 amended: `get_analysis_progress` returns the live progress
mapping itself, not a copy — the same reference before and after any
status write — and a subsequent status write is visible through a
previously returned mapping. -/
theorem claim_C8_snapshot_is_alias (s : MasterState) (n : String) (st : Status)
    (href : s.progressRef < s.heap.length) :
    get_analysis_progress (set_status s n st) = get_analysis_progress s ∧
    readRef (set_status s n st) (get_analysis_progress s) n = some st := by
  refine ⟨rfl, ?_⟩
  unfold readRef set_status get_analysis_progress
  rw [List.get?_eq_getElem?, List.getElem?_set_self (by simpa using href)]
  simp

/-- Claim C8 amended witness: the aliasing theorem at the initial state. -/
theorem claim_C8_snapshot_is_alias_witness :
    get_analysis_progress (set_status initState "patent_analysis" Status.Running)
        = get_analysis_progress initState ∧
    readRef (set_status initState "patent_analysis" Status.Running)
        (get_analysis_progress initState) "patent_analysis" = some Status.Running :=
  claim_C8_snapshot_is_alias initState "patent_analysis" Status.Running (by decide)

/-- How the awaited `report_generator.generate_report` call can settle:
it returns a path, or raises with a description. -/
inductive RenderOutcome
  | ok (path : String)
  | exc (msg : String)
  deriving DecidableEq

/-- The result bundle assembled by `analyze_repurposing_async`, restricted
to the modelled keys: the per-capability results (plus the non-dict
molecule / disease / timestamp entries), the synthesis report, and the
`pdf_report` artifact reference. -/
structure Bundle where
  results : List (String × ResultValue)
  master_synthesis : SynthesisReport
  pdf_report : Option String
  deriving DecidableEq

/-- `MasterAgent.analyze_repurposing_async` (src/master_agent.py lines
414-454): gather the per-agent results, add the molecule / disease /
timestamp string entries, synthesize, then `await asyncio.to_thread(
self.report_generator.generate_report, ...)` — a call NOT wrapped in any
try/except, so a renderer exception propagates out of the coroutine and
the assembled bundle is lost (`Except.error`); only on success is the
bundle returned with `pdf_report` set. -/
def analyze_repurposing_async (outcomes : String → Outcome)
    (render : RenderOutcome) : Except String Bundle :=
  let all_results := gatherResults outcomes ++
    [("molecule", ResultValue.nondict), ("disease", ResultValue.nondict),
     ("timestamp", ResultValue.nondict)]
  let synthesis := synthesize_results (lookupResult all_results)
  match render with
  | RenderOutcome.ok path => Except.ok ⟨all_results, synthesis, some path⟩
  | RenderOutcome.exc msg => Except.error msg

/-- Claim C9 evaluation at the failing input: a run in which every agent
succeeds but `generate_report` raises returns a run-level error, not the
assembled bundle — the renderer failure propagates out of
`analyze_repurposing_async` because its await is not exception-guarded,
contradicting the specified return-bundle-with-empty-artifact behavior. -/
theorem claim_C9_renderer_failure_propagates :
    analyze_repurposing_async (fun _ => Outcome.ok (ResultValue.dict emptyResult))
        (RenderOutcome.exc "renderer crashed")
      = Except.error "renderer crashed" := rfl

end IntelliDrug
